import Mathlib

/-!
Verification of the picoclaw security-approval core: a shallow embedding of
`pkg/security` (PolicyMode, GetMode, Evaluate, requestApproval, the approval
keyword predicates and the approval prompt formatter) and of the `pkg/bus`
message-router operations that the approval cycle relies on.

Go strings are modelled as Lean `String`, with one Lean `Char` per Go rune.
`strings.TrimSpace` is modelled rune-exactly (`goTrim` over the complete
Unicode White_Space table of `unicode.IsSpace`); `strings.ToLower` is
modelled by `goToLower`, which agrees with `unicode.ToLower` on every rune
whose Go lowercase is ASCII and keeps the remaining runes unchanged — a
difference the embedded code cannot observe, as argued at `charLower`.
Go's 64-bit signed integer arithmetic on `time.Duration` is modelled with
explicit wraparound (`wrap64`).
-/

namespace Picoclaw

/-- Model of Go `unicode.ToLower` on one rune, exact for every rune whose
Go lowercase is an ASCII letter: the ASCII letters A-Z fold to a-z, and the
only two non-ASCII code points whose Unicode simple lowercase mapping is an
ASCII letter — U+0130 LATIN CAPITAL LETTER I WITH DOT ABOVE (→ i) and
U+212A KELVIN SIGN (→ k) — fold likewise.  Every other rune is kept
unchanged, whereas `unicode.ToLower` may lower it within non-ASCII (Σ → σ);
for any such rune the model's output (the rune itself) and Go's output (its
lowercase) are both non-ASCII, so a string maps to an all-ASCII string such
as the keyword "approve" under `goToLower` iff it does under
`strings.ToLower`, and the only comparisons the embedded code performs on a
lowered string are against the ten all-ASCII keywords — the interceptor's
decision therefore agrees with the program on every input. -/
def charLower (c : Char) : Char :=
  if 'A' ≤ c ∧ c ≤ 'Z' then Char.ofNat (c.toNat + 32)
  else if c = '\u0130' then 'i'
  else if c = '\u212A' then 'k'
  else c

/-- Model of Go `strings.ToLower`: lower each rune (see `charLower`). -/
def goToLower (s : String) : String := String.mk (s.data.map charLower)

/-- Go `unicode.IsSpace`: the complete Unicode White_Space table used by
Go — U+0009–U+000D, space, U+0085, U+00A0, U+1680, U+2000–U+200A,
U+2028, U+2029, U+202F, U+205F and U+3000. -/
def goIsSpace (c : Char) : Bool :=
  c == ' ' || c == '\t' || c == '\n' || c == '\x0b' || c == '\x0c' || c == '\r'
    || c == '\x85' || c == '\xa0' || c == '\u1680'
    || ('\u2000' ≤ c && c ≤ '\u200A')
    || c == '\u2028' || c == '\u2029' || c == '\u202F' || c == '\u205F'
    || c == '\u3000'

/-- Model of Go `strings.TrimSpace`: drop `unicode.IsSpace` runes from both
ends. -/
def goTrim (s : String) : String :=
  String.mk (((s.data.dropWhile goIsSpace).reverse.dropWhile goIsSpace).reverse)

/-- Substring containment (the relation behind Go `strings.Contains` and the
test helper `containsSubstring` in the repository's tests), decided on the
character sequences. -/
def containsSubstring (s sub : String) : Bool :=
  decide (sub.data <:+: s.data)

/-- `pkg/bus`: one inbound chat message. -/
structure InboundMessage where
  channel : String
  senderID : String
  chatID : String
  content : String
  media : List String
  sessionKey : String
  metadata : List (String × String)
deriving Repr, DecidableEq

/-- `pkg/bus`: one outbound chat message. -/
structure OutboundMessage where
  channel : String
  chatID : String
  content : String
deriving Repr, DecidableEq

/-- `pkg/security`: a security event detected by a guard. -/
structure Violation where
  category : String
  tool : String
  action : String
  reason : String
  ruleName : String
deriving Repr, DecidableEq

/-- `pkg/config`: the security section of the configuration.  The struct
itself is outside the embedded sources; its fields are reconstructed from
their uses in `GetMode` and `requestApproval` (`ApprovalTimeout` is a Go
`int`, modelled as an unbounded `Int` holding a 64-bit value). -/
structure SecurityConfig where
  execGuard : String
  ssrfProtection : String
  pathValidation : String
  skillValidation : String
  approvalTimeout : Int
deriving Repr, DecidableEq

/-- `type PolicyMode string`. -/
abbrev PolicyMode := String

def ModeOff : PolicyMode := "off"

def ModeBlock : PolicyMode := "block"

def ModeApprove : PolicyMode := "approve"

/-- `PolicyMode.IsOff`: both the zero value and the explicit "off" string
mean no enforcement. -/
def PolicyMode.IsOff (m : PolicyMode) : Bool := m == "" || m == ModeOff

/-- `isApproveKeyword`: lowercase ASCII approval keywords. -/
def isApproveKeyword (lower : String) : Bool :=
  lower == "approve" || lower == "yes" || lower == "allow" || lower == "ok" || lower == "y"

/-- `isApproveKeywordCJK`: CJK approval keywords, matched exactly. -/
def isApproveKeywordCJK (s : String) : Bool :=
  s == "批准" || s == "允许" || s == "通过" || s == "是" || s == "承認" || s == "許可" || s == "はい"

/-- `isDenyKeyword`: lowercase ASCII denial keywords. -/
def isDenyKeyword (lower : String) : Bool :=
  lower == "deny" || lower == "no" || lower == "reject" || lower == "block" || lower == "n"

/-- `isDenyKeywordCJK`: CJK denial keywords, matched exactly. -/
def isDenyKeywordCJK (s : String) : Bool :=
  s == "拒绝" || s == "否决" || s == "不" || s == "拒否" || s == "いいえ"

/-- What the interceptor registered by `requestApproval` does with one
inbound message: consume it resolving approval, consume it resolving denial
(with the reason sent on the result channel), or pass it through. -/
inductive InterceptResult where
  | consumedApproved
  | consumedDenied (reason : String)
  | passed
deriving Repr, DecidableEq

/-- Whether the interceptor returned `true` to the bus (message consumed). -/
def InterceptResult.consumed : InterceptResult → Bool
  | .passed => false
  | _ => true

/-- The body of the closure `requestApproval` passes to `AddInterceptor`:
ignore messages from another channel or chat; on the trimmed content, check
the ASCII keywords case-insensitively and the CJK keywords exactly; send the
decision on the result channel and consume, or pass the message through. -/
def approvalInterceptor (channel chatID : String) (msg : InboundMessage) : InterceptResult :=
  if msg.channel != channel || msg.chatID != chatID then .passed
  else
    let content := goTrim msg.content
    let lower := goToLower content
    if isApproveKeyword lower || isApproveKeywordCJK content then .consumedApproved
    else if isDenyKeyword lower || isDenyKeywordCJK content then .consumedDenied "denied by user"
    else .passed

/-- The model matches the program on an ideographic-space-padded CJK reply:
the trailing U+3000 is trimmed by `strings.TrimSpace` and the reply
approves. -/
lemma approvalInterceptor_trims_ideographic_space :
    approvalInterceptor "telegram" "chat1"
      { channel := "telegram", senderID := "u", chatID := "chat1",
        content := "批准\u3000", media := [], sessionKey := "", metadata := [] }
      = .consumedApproved := by decide

/-- The model matches the program on the Kelvin-sign reply O-U+212A, which
Go lowercases to the keyword "ok". -/
lemma approvalInterceptor_folds_kelvin_sign :
    approvalInterceptor "telegram" "chat1"
      { channel := "telegram", senderID := "u", chatID := "chat1",
        content := "O\u212A", media := [], sessionKey := "", metadata := [] }
      = .consumedApproved := by decide

/-- The ASCII-case-insensitive-or-exact-CJK approve match unfolded to the
enumerated keyword sets. -/
lemma approveMatch_iff (s : String) :
    (isApproveKeyword (goToLower s) || isApproveKeywordCJK s) = true ↔
      (goToLower s ∈ (["approve", "yes", "allow", "ok", "y"] : List String)
        ∨ s ∈ (["批准", "允许", "通过", "是", "承認", "許可", "はい"] : List String)) := by
  simp only [isApproveKeyword, isApproveKeywordCJK, Bool.or_eq_true, beq_iff_eq,
    List.mem_cons, List.mem_singleton, List.not_mem_nil, or_false]
  tauto

/-- The ASCII-case-insensitive-or-exact-CJK deny match unfolded to the
enumerated keyword sets. -/
lemma denyMatch_iff (s : String) :
    (isDenyKeyword (goToLower s) || isDenyKeywordCJK s) = true ↔
      (goToLower s ∈ (["deny", "no", "reject", "block", "n"] : List String)
        ∨ s ∈ (["拒绝", "否决", "不", "拒否", "いいえ"] : List String)) := by
  simp only [isDenyKeyword, isDenyKeywordCJK, Bool.or_eq_true, beq_iff_eq,
    List.mem_cons, List.mem_singleton, List.not_mem_nil, or_false]
  tauto

/-- No content matches both the approve keywords and the deny keywords:
the two enumerated sets are disjoint. -/
lemma approveMatch_deny_false (s : String)
    (h : (isApproveKeyword (goToLower s) || isApproveKeywordCJK s) = true) :
    (isDenyKeyword (goToLower s) || isDenyKeywordCJK s) = false := by
  simp only [isApproveKeyword, isApproveKeywordCJK, Bool.or_eq_true, beq_iff_eq] at h
  have h2 : goToLower s = "approve" ∨ goToLower s = "yes" ∨ goToLower s = "allow"
      ∨ goToLower s = "ok" ∨ goToLower s = "y" ∨ s = "批准" ∨ s = "允许" ∨ s = "通过"
      ∨ s = "是" ∨ s = "承認" ∨ s = "許可" ∨ s = "はい" := by tauto
  rcases h2 with h2 | h2 | h2 | h2 | h2 | rfl | rfl | rfl | rfl | rfl | rfl | rfl
  all_goals first
    | decide
    | (have hd : isDenyKeyword (goToLower s) = false := by rw [h2]; decide
       have hcjk : isDenyKeywordCJK s = false := by
         cases hh : isDenyKeywordCJK s
         · rfl
         · exfalso
           simp only [isDenyKeywordCJK, Bool.or_eq_true, beq_iff_eq] at hh
           have h3 : s = "拒绝" ∨ s = "否决" ∨ s = "不" ∨ s = "拒否" ∨ s = "いいえ" := by
             tauto
           rcases h3 with rfl | rfl | rfl | rfl | rfl <;> exact absurd h2 (by decide)
       simp [hd, hcjk])

/-- C1: for an approval cycle on channel `c` and chat `d`, the registered
interceptor consumes an inbound message iff the message is on that channel
and chat and its trimmed content is an accepted keyword; an approve keyword
(ASCII case-insensitively or CJK exactly) resolves approval, a deny keyword
resolves denial with the reason "denied by user", and anything else is
passed through without resolving the cycle. -/
theorem approval_interceptor_keyword_semantics (c d : String) (m : InboundMessage) :
    (approvalInterceptor c d m = .consumedApproved ↔
      m.channel = c ∧ m.chatID = d ∧
        (goToLower (goTrim m.content) ∈ (["approve", "yes", "allow", "ok", "y"] : List String)
          ∨ goTrim m.content ∈ (["批准", "允许", "通过", "是", "承認", "許可", "はい"] : List String)))
  ∧ (approvalInterceptor c d m = .consumedDenied "denied by user" ↔
      m.channel = c ∧ m.chatID = d ∧
        (goToLower (goTrim m.content) ∈ (["deny", "no", "reject", "block", "n"] : List String)
          ∨ goTrim m.content ∈ (["拒绝", "否决", "不", "拒否", "いいえ"] : List String)))
  ∧ ((approvalInterceptor c d m).consumed = true ↔
      m.channel = c ∧ m.chatID = d ∧
        ((goToLower (goTrim m.content) ∈ (["approve", "yes", "allow", "ok", "y"] : List String)
            ∨ goTrim m.content ∈ (["批准", "允许", "通过", "是", "承認", "許可", "はい"] : List String))
          ∨ (goToLower (goTrim m.content) ∈ (["deny", "no", "reject", "block", "n"] : List String)
            ∨ goTrim m.content ∈ (["拒绝", "否决", "不", "拒否", "いいえ"] : List String)))) := by
  by_cases hch : m.channel = c
  · by_cases hcd : m.chatID = d
    · have hg : (m.channel != c || m.chatID != d) = false := by simp [hch, hcd]
      cases ha : (isApproveKeyword (goToLower (goTrim m.content))
          || isApproveKeywordCJK (goTrim m.content)) with
      | true =>
        have hdeny := approveMatch_deny_false (goTrim m.content) ha
        have hres : approvalInterceptor c d m = .consumedApproved := by
          simp [approvalInterceptor, hg, ha]
        refine ⟨?_, ?_, ?_⟩
        · exact iff_of_true hres ⟨hch, hcd, (approveMatch_iff _).mp ha⟩
        · refine iff_of_false (by simp [hres]) ?_
          rintro ⟨-, -, hmem⟩
          exact absurd ((denyMatch_iff _).mpr hmem) (by simp [hdeny])
        · exact iff_of_true (by simp [hres, InterceptResult.consumed])
            ⟨hch, hcd, Or.inl ((approveMatch_iff _).mp ha)⟩
      | false =>
        cases hb : (isDenyKeyword (goToLower (goTrim m.content))
            || isDenyKeywordCJK (goTrim m.content)) with
        | true =>
          have hres : approvalInterceptor c d m = .consumedDenied "denied by user" := by
            simp [approvalInterceptor, hg, ha, hb]
          refine ⟨?_, ?_, ?_⟩
          · refine iff_of_false (by simp [hres]) ?_
            rintro ⟨-, -, hmem⟩
            exact absurd ((approveMatch_iff _).mpr hmem) (by simp [ha])
          · exact iff_of_true hres ⟨hch, hcd, (denyMatch_iff _).mp hb⟩
          · exact iff_of_true (by simp [hres, InterceptResult.consumed])
              ⟨hch, hcd, Or.inr ((denyMatch_iff _).mp hb)⟩
        | false =>
          have hres : approvalInterceptor c d m = .passed := by
            simp [approvalInterceptor, hg, ha, hb]
          refine ⟨?_, ?_, ?_⟩
          · refine iff_of_false (by simp [hres]) ?_
            rintro ⟨-, -, hmem⟩
            exact absurd ((approveMatch_iff _).mpr hmem) (by simp [ha])
          · refine iff_of_false (by simp [hres]) ?_
            rintro ⟨-, -, hmem⟩
            exact absurd ((denyMatch_iff _).mpr hmem) (by simp [hb])
          · refine iff_of_false (by simp [hres, InterceptResult.consumed]) ?_
            rintro ⟨-, -, hmem | hmem⟩
            · exact absurd ((approveMatch_iff _).mpr hmem) (by simp [ha])
            · exact absurd ((denyMatch_iff _).mpr hmem) (by simp [hb])
    · have hg : (m.channel != c || m.chatID != d) = true := by simp [hcd]
      have hres : approvalInterceptor c d m = .passed := by
        simp [approvalInterceptor, hg]
      refine ⟨?_, ?_, ?_⟩ <;>
        refine iff_of_false (by simp [hres, InterceptResult.consumed]) ?_ <;>
        rintro ⟨-, h2, -⟩ <;> exact hcd h2
  · have hg : (m.channel != c || m.chatID != d) = true := by simp [hch]
    have hres : approvalInterceptor c d m = .passed := by
      simp [approvalInterceptor, hg]
    refine ⟨?_, ?_, ?_⟩ <;>
      refine iff_of_false (by simp [hres, InterceptResult.consumed]) ?_ <;>
      rintro ⟨h1, -, -⟩ <;> exact hch h1

/-- Modelled from the spec: one interceptor registration in the router's
ordered chain (§3 "Interceptor registration", §4.1 "Add interceptor").  The
`pkg/bus` MessageBus implementation is absent from the embedded sources
(only its message types and its tests are present); the handle returned by
AddInterceptor is modelled by a fresh numeric id. -/
structure Registration where
  id : Nat
  pred : InboundMessage → Bool

/-- Modelled from the spec: the message router's state (§4.1) — the ordered
interceptor chain, the default inbound queue (FIFO), the outbound queue,
and the next fresh registration id. -/
structure MessageBus where
  interceptors : List Registration
  inbound : List InboundMessage
  outbound : List OutboundMessage
  nextId : Nat

/-- Modelled from the spec: `AddInterceptor` appends the predicate to the
chain (registration order) and returns the handle that removal uses. -/
def MessageBus.addInterceptor (bus : MessageBus) (pred : InboundMessage → Bool) :
    MessageBus × Nat :=
  ({ bus with
      interceptors := bus.interceptors ++ [{ id := bus.nextId, pred := pred }],
      nextId := bus.nextId + 1 },
   bus.nextId)

/-- Modelled from the spec: invoking the remove handle unregisters the
predicate, so no future publish invokes it. -/
def MessageBus.removeInterceptor (bus : MessageBus) (rid : Nat) : MessageBus :=
  { bus with interceptors := bus.interceptors.filter (fun r => r.id != rid) }

/-- Modelled from the spec: evaluate the chain in registration order and
stop at the first predicate that consumes; returns the ids invoked, in
order, and whether the message was consumed. -/
def runInterceptors : List Registration → InboundMessage → List Nat × Bool
  | [], _ => ([], false)
  | r :: rest, m =>
    if r.pred m then ([r.id], true)
    else
      let p := runInterceptors rest m
      (r.id :: p.1, p.2)

/-- Modelled from the spec: `PublishInbound` runs the interceptor chain; a
consumed message is dropped, otherwise it is enqueued for the default
consumer.  Also returns the ids invoked and the consumption flag. -/
def MessageBus.publishInbound (bus : MessageBus) (m : InboundMessage) :
    MessageBus × List Nat × Bool :=
  let p := runInterceptors bus.interceptors m
  (if p.2 then bus else { bus with inbound := bus.inbound ++ [m] }, p)

/-- Modelled from the spec: `PublishOutbound` enqueues an outgoing message. -/
def MessageBus.publishOutbound (bus : MessageBus) (m : OutboundMessage) : MessageBus :=
  { bus with outbound := bus.outbound ++ [m] }

/-- `PolicyEngine`: the orchestrator's immutable part; the message bus it
holds by reference is threaded explicitly as mutable state. -/
structure PolicyEngine where
  config : SecurityConfig
deriving Repr, DecidableEq

/-- `NewPolicyEngine`. -/
def NewPolicyEngine (cfg : SecurityConfig) : PolicyEngine := { config := cfg }

/-- `modeOfRaw`: the second switch of `GetMode`, mapping a configured string
to a PolicyMode; anything other than "block"/"approve" is off. -/
def modeOfRaw (raw : String) : PolicyMode :=
  if raw == "block" then ModeBlock
  else if raw == "approve" then ModeApprove
  else ModeOff

/-- `GetMode`: per-category mode lookup; unknown categories are off. -/
def GetMode (pe : PolicyEngine) (category : String) : PolicyMode :=
  if category == "exec_guard" then modeOfRaw pe.config.execGuard
  else if category == "ssrf" then modeOfRaw pe.config.ssrfProtection
  else if category == "path_validation" then modeOfRaw pe.config.pathValidation
  else if category == "skill_validation" then modeOfRaw pe.config.skillValidation
  else ModeOff

/-- Two's-complement wraparound of Go's 64-bit signed arithmetic. -/
def wrap64 (x : Int) : Int := (x + 2 ^ 63) % 2 ^ 64 - 2 ^ 63

/-- Strip trailing '0' characters (Go duration fraction printing). -/
def dropTrailingZeros (l : List Char) : List Char :=
  (l.reverse.dropWhile (fun c => c == '0')).reverse

/-- Left-pad a decimal string with zeros to the given width. -/
def padZeros (s : String) (n : Nat) : String :=
  String.mk (List.replicate (n - s.length) '0') ++ s

/-- The fractional part `fmtFrac` of Go `time.Duration.String`: the low
`prec` decimal digits of `u`, trailing zeros and an all-zero fraction
omitted, preceded by a decimal point when non-empty. -/
def fracStr (u : Nat) (prec : Nat) : String :=
  let f := u % 10 ^ prec
  if f = 0 then ""
  else "." ++ String.mk (dropTrailingZeros (padZeros (toString f) prec).data)

/-- Go `time.Duration.String` for a positive number of nanoseconds. -/
def goDurationStringPos (u : Nat) : String :=
  if u < 1000 then toString u ++ "ns"
  else if u < 1000000 then toString (u / 1000) ++ fracStr u 3 ++ "µs"
  else if u < 1000000000 then toString (u / 1000000) ++ fracStr u 6 ++ "ms"
  else
    let sec := u / 1000000000
    let sPart := toString (sec % 60) ++ fracStr u 9 ++ "s"
    let minTotal := sec / 60
    if minTotal = 0 then sPart
    else
      let mPart := toString (minTotal % 60) ++ "m" ++ sPart
      let hTotal := minTotal / 60
      if hTotal = 0 then mPart else toString hTotal ++ "h" ++ mPart

/-- Go `time.Duration.String` (`%v` of a duration), on the model's `Int`
nanosecond count. -/
def goDurationString (d : Int) : String :=
  if d = 0 then "0s"
  else if d < 0 then "-" ++ goDurationStringPos d.natAbs
  else goDurationStringPos d.toNat

/-- Go `context.Context.Err()` for a context whose Done channel fired:
exactly one of the two sentinel errors. -/
inductive CtxError where
  | canceled
  | deadlineExceeded
deriving Repr, DecidableEq

/-- The message of a context sentinel error. -/
def CtxError.message : CtxError → String
  | .canceled => "context canceled"
  | .deadlineExceeded => "context deadline exceeded"

/-- The distinguishable error values `Evaluate`/`requestApproval` can
return (Go errors compare as values; `ctx.Err()` is a sentinel distinct
from any `fmt.Errorf` result). -/
inductive PolicyError where
  | blocked (category reason : String)
  | cliUnavailable (category reason : String)
  | denied (reason : String)
  | timedOut (ns : Int)
  | cancelled (cause : CtxError)
deriving Repr, DecidableEq

/-- The `Error()` string of each error value, as formatted by the source. -/
def PolicyError.message : PolicyError → String
  | .blocked category reason =>
      "blocked by security policy [" ++ category ++ "]: " ++ reason
  | .cliUnavailable category reason =>
      "blocked by security policy [" ++ category ++ "]: " ++ reason
        ++ " (approve mode unavailable in CLI)"
  | .denied reason => "denied by user: " ++ reason
  | .timedOut ns => "approval timed out after " ++ goDurationString ns
  | .cancelled cause => cause.message

/-- `formatApprovalMessage`: the approval prompt body. -/
def formatApprovalMessage (v : Violation) (timeoutSec : Int) : String :=
  "⚠️ Security Approval Required / 安全审批请求\n\n"
    ++ ("Category: " ++ v.category ++ "\n")
    ++ (if v.tool != "" then "Tool: " ++ v.tool ++ "\n" else "")
    ++ (if v.action != "" then "Action: " ++ v.action ++ "\n" else "")
    ++ ("Reason: " ++ v.reason ++ "\n")
    ++ (if v.ruleName != "" then "Rule: " ++ v.ruleName ++ "\n" else "")
    ++ "\nReply \"approve\" to allow or \"deny\" to block.\n"
    ++ "回复 \"批准\" 允许执行，回复 \"拒绝\" 阻止执行。\n"
    ++ (if timeoutSec > 0 then "Auto-deny in " ++ toString timeoutSec ++ " seconds.\n" else "")

/-- The user's decision as carried on the result channel. -/
structure ApprovalResult where
  approved : Bool
  reason : String
deriving Repr, DecidableEq

/-- Which of the three raced events fires first in the `select` of
`requestApproval`: a reply captured by the interceptor, the timeout, or the
caller's cancellation signal. -/
inductive RaceOutcome where
  | reply (r : ApprovalResult)
  | timeout
  | cancelled (cause : CtxError)
deriving Repr, DecidableEq

/-- Observable side effects of an approval cycle, in execution order. -/
inductive Effect where
  | addInterceptor (rid : Nat)
  | publishOutbound (m : OutboundMessage)
  | removeInterceptor (rid : Nat)
deriving Repr, DecidableEq

/-- `requestApproval`: register the reply interceptor, publish the prompt,
race reply/timeout/cancellation, and remove the interceptor (the deferred
removal runs on every exit path).  The winner of the race is supplied as
`outcome`; the timeout is `time.Duration(cfg.ApprovalTimeout) * time.Second`
in wrapping 64-bit nanosecond arithmetic, with the 300-second fallback when
that is non-positive.  Returns the final bus, the effect trace, and the
result. -/
def requestApproval (pe : PolicyEngine) (bus : MessageBus) (v : Violation)
    (channel chatID : String) (outcome : RaceOutcome) :
    MessageBus × List Effect × Except PolicyError Unit :=
  let reg := bus.addInterceptor
    (fun msg => InterceptResult.consumed (approvalInterceptor channel chatID msg))
  let bus1 := reg.1
  let rid := reg.2
  let prompt : OutboundMessage :=
    { channel := channel, chatID := chatID,
      content := formatApprovalMessage v pe.config.approvalTimeout }
  let bus2 := bus1.publishOutbound prompt
  let timeoutRaw := wrap64 (pe.config.approvalTimeout * 1000000000)
  let timeoutNs := if timeoutRaw ≤ 0 then 300 * 1000000000 else timeoutRaw
  let result : Except PolicyError Unit :=
    match outcome with
    | .reply r => if r.approved then .ok () else .error (.denied r.reason)
    | .timeout => .error (.timedOut timeoutNs)
    | .cancelled cause => .error (.cancelled cause)
  let bus3 := bus2.removeInterceptor rid
  (bus3,
   [Effect.addInterceptor rid, Effect.publishOutbound prompt, Effect.removeInterceptor rid],
   result)

/-- `Evaluate`: off allows; block denies with a descriptive error; approve
falls back to a block-shaped failure on the CLI/empty channel and otherwise
runs the approval cycle; any unrecognized mode allows. -/
def Evaluate (pe : PolicyEngine) (bus : MessageBus) (mode : PolicyMode) (v : Violation)
    (channel chatID : String) (outcome : RaceOutcome) :
    MessageBus × List Effect × Except PolicyError Unit :=
  if PolicyMode.IsOff mode then (bus, [], .ok ())
  else if mode == ModeBlock then (bus, [], .error (.blocked v.category v.reason))
  else if mode == ModeApprove then
    if channel == "" || channel == "cli" then
      (bus, [], .error (.cliUnavailable v.category v.reason))
    else
      requestApproval pe bus v channel chatID outcome
  else (bus, [], .ok ())

lemma containsSubstring_of_infix {s sub : String} (h : sub.data <:+: s.data) :
    containsSubstring s sub = true :=
  decide_eq_true h

lemma substr_refl (s : String) : containsSubstring s s = true :=
  containsSubstring_of_infix (List.infix_rfl)

lemma substr_append_left {s sub : String} (t : String)
    (h : containsSubstring s sub = true) : containsSubstring (s ++ t) sub = true := by
  have hi : sub.data <:+: s.data := of_decide_eq_true h
  refine containsSubstring_of_infix ?_
  rw [String.data_append]
  exact hi.trans ⟨[], t.data, by simp⟩

lemma substr_append_right {s sub : String} (t : String)
    (h : containsSubstring s sub = true) : containsSubstring (t ++ s) sub = true := by
  have hi : sub.data <:+: s.data := of_decide_eq_true h
  refine containsSubstring_of_infix ?_
  rw [String.data_append]
  exact hi.trans ⟨t.data, [], by simp⟩

/-- The evaluation log and consumption flag of one publish, expressed by
the chain: the invoked registrations are exactly those before the first
consumer, plus the first consumer itself, and the message is consumed iff
some registered predicate matches. -/
lemma runInterceptors_spec (regs : List Registration) (m : InboundMessage) :
    runInterceptors regs m =
      ((regs.takeWhile (fun r => !r.pred m)).map Registration.id
          ++ ((regs.find? (fun r => r.pred m)).map Registration.id).toList,
        regs.any (fun r => r.pred m)) := by
  induction regs with
  | nil => simp [runInterceptors]
  | cons r rest ih =>
    cases h : r.pred m with
    | true => simp [runInterceptors, h, List.takeWhile_cons, List.find?_cons, List.any_cons]
    | false => simp [runInterceptors, h, ih, List.takeWhile_cons, List.find?_cons, List.any_cons]

/-- Every invoked id belongs to a registration present when publish began. -/
lemma runInterceptors_invoked_subset (regs : List Registration) (m : InboundMessage) :
    ∀ i ∈ (runInterceptors regs m).1, i ∈ regs.map Registration.id := by
  induction regs with
  | nil => simp [runInterceptors]
  | cons r rest ih =>
    cases h : r.pred m with
    | true => simp [runInterceptors, h]
    | false =>
      intro i hi
      simp only [runInterceptors, h] at hi
      rcases List.mem_cons.mp hi with rfl | hi
      · simp
      · exact List.mem_cons_of_mem _ (ih i hi)

/-- C2: a published inbound message is enqueued for the default consumer
iff no interceptor present at publish time consumed it; interceptors are
evaluated in registration order and the first consumer stops evaluation (a
consumed message never reaches the default queue); invoked interceptors all
were registered at publish time; and a removed registration id is never
present afterwards. -/
theorem router_publish_semantics (bus : MessageBus) (m : InboundMessage) :
    ((bus.publishInbound m).1.inbound =
        if bus.interceptors.any (fun r => r.pred m) then bus.inbound
        else bus.inbound ++ [m])
  ∧ ((bus.publishInbound m).2.2 = bus.interceptors.any (fun r => r.pred m))
  ∧ ((bus.publishInbound m).2.1 =
        (bus.interceptors.takeWhile (fun r => !r.pred m)).map Registration.id
          ++ ((bus.interceptors.find? (fun r => r.pred m)).map Registration.id).toList)
  ∧ (∀ i ∈ (bus.publishInbound m).2.1, i ∈ bus.interceptors.map Registration.id)
  ∧ (∀ rid, rid ∉ ((bus.removeInterceptor rid).interceptors.map Registration.id)) := by
  have hs := runInterceptors_spec bus.interceptors m
  refine ⟨?_, ?_, ?_, ?_, ?_⟩
  · simp only [MessageBus.publishInbound, hs]
    cases hany : bus.interceptors.any (fun r => r.pred m) <;> simp [hany]
  · simp [MessageBus.publishInbound, hs]
  · simp [MessageBus.publishInbound, hs]
  · intro i hi
    simp only [MessageBus.publishInbound] at hi
    exact runInterceptors_invoked_subset bus.interceptors m i hi
  · intro rid hmem
    simp only [MessageBus.removeInterceptor, List.mem_map, List.mem_filter] at hmem
    obtain ⟨r, ⟨-, hne⟩, heq⟩ := hmem
    simp [heq] at hne

/-- A sample configuration used to instantiate hypotheses concretely. -/
def sampleConfig : SecurityConfig :=
  { execGuard := "unknown", ssrfProtection := "", pathValidation := "what",
    skillValidation := "ON", approvalTimeout := 5 }

/-- A sample engine over `sampleConfig`. -/
def sampleEngine : PolicyEngine := NewPolicyEngine sampleConfig

/-- A bus with no interceptors and empty queues. -/
def emptyBus : MessageBus :=
  { interceptors := [], inbound := [], outbound := [], nextId := 0 }

/-- A sample violation with every field non-empty. -/
def sampleViolation : Violation :=
  { category := "exec_guard", tool := "exec", action := "rm -rf /tmp",
    reason := "dangerous pattern detected", ruleName := "r1" }

/-- C6: in approve mode on the empty channel or the "cli" channel, Evaluate
fails with the block-shaped unavailability error, whose message mentions
unavailability, and neither publishes an outbound message nor registers an
interceptor (empty effect trace, bus untouched). -/
theorem evaluate_approve_unavailable_channels (pe : PolicyEngine) (bus : MessageBus)
    (v : Violation) (chatID : String) (outcome : RaceOutcome) :
    Evaluate pe bus ModeApprove v "" chatID outcome
        = (bus, [], .error (.cliUnavailable v.category v.reason))
  ∧ Evaluate pe bus ModeApprove v "cli" chatID outcome
        = (bus, [], .error (.cliUnavailable v.category v.reason))
  ∧ containsSubstring (PolicyError.cliUnavailable v.category v.reason).message
        "unavailable" = true := by
  refine ⟨rfl, rfl, ?_⟩
  simp only [PolicyError.message]
  exact substr_append_right _ (by decide)

/-- C7: mode lookup is off for every category outside the fixed set, and
off for every configured value other than "block"/"approve" in each of the
four fixed categories. -/
theorem getmode_fail_open (pe : PolicyEngine) (category : String) :
    (category ≠ "exec_guard" → category ≠ "ssrf" → category ≠ "path_validation" →
        category ≠ "skill_validation" → GetMode pe category = ModeOff)
  ∧ (∀ raw, raw ≠ "block" → raw ≠ "approve" → modeOfRaw raw = ModeOff)
  ∧ (pe.config.execGuard ≠ "block" → pe.config.execGuard ≠ "approve" →
        GetMode pe "exec_guard" = ModeOff)
  ∧ (pe.config.ssrfProtection ≠ "block" → pe.config.ssrfProtection ≠ "approve" →
        GetMode pe "ssrf" = ModeOff)
  ∧ (pe.config.pathValidation ≠ "block" → pe.config.pathValidation ≠ "approve" →
        GetMode pe "path_validation" = ModeOff)
  ∧ (pe.config.skillValidation ≠ "block" → pe.config.skillValidation ≠ "approve" →
        GetMode pe "skill_validation" = ModeOff) := by
  refine ⟨?_, ?_, ?_, ?_, ?_, ?_⟩
  · intro h1 h2 h3 h4
    simp [GetMode, h1, h2, h3, h4]
  · intro raw h1 h2
    simp [modeOfRaw, h1, h2]
  · intro h1 h2
    simp [GetMode, modeOfRaw, h1, h2]
  · intro h1 h2
    simp [GetMode, modeOfRaw, h1, h2]
  · intro h1 h2
    simp [GetMode, modeOfRaw, h1, h2]
  · intro h1 h2
    simp [GetMode, modeOfRaw, h1, h2]

/-- Concrete instantiation of `getmode_fail_open`: an unknown category and
four configured values outside block/approve all look up as off. -/
theorem getmode_fail_open_witness :
    GetMode sampleEngine "unknown_category" = ModeOff
  ∧ modeOfRaw "weird" = ModeOff
  ∧ GetMode sampleEngine "exec_guard" = ModeOff
  ∧ GetMode sampleEngine "ssrf" = ModeOff
  ∧ GetMode sampleEngine "path_validation" = ModeOff
  ∧ GetMode sampleEngine "skill_validation" = ModeOff :=
  ⟨(getmode_fail_open sampleEngine "unknown_category").1 (by decide) (by decide)
      (by decide) (by decide),
   (getmode_fail_open sampleEngine "x").2.1 "weird" (by decide) (by decide),
   (getmode_fail_open sampleEngine "exec_guard").2.2.1 (by decide) (by decide),
   (getmode_fail_open sampleEngine "ssrf").2.2.2.1 (by decide) (by decide),
   (getmode_fail_open sampleEngine "path_validation").2.2.2.2.1 (by decide) (by decide),
   (getmode_fail_open sampleEngine "skill_validation").2.2.2.2.2 (by decide) (by decide)⟩

/-- C8: Evaluate in block mode always fails with the blocked error, with no
side effect, and the failure message contains the violation's category and
its reason. -/
theorem evaluate_block_fails (pe : PolicyEngine) (bus : MessageBus) (v : Violation)
    (channel chatID : String) (outcome : RaceOutcome) :
    Evaluate pe bus ModeBlock v channel chatID outcome
        = (bus, [], .error (.blocked v.category v.reason))
  ∧ containsSubstring (PolicyError.blocked v.category v.reason).message v.category = true
  ∧ containsSubstring (PolicyError.blocked v.category v.reason).message v.reason = true := by
  refine ⟨rfl, ?_, ?_⟩
  · simp only [PolicyError.message]
    exact substr_append_left _ (substr_append_left _
      (substr_append_right _ (substr_refl v.category)))
  · simp only [PolicyError.message]
    exact substr_append_right _ (substr_refl v.reason)

/-- C10: Evaluate is fail-open on any mode value outside the recognized
set: it allows with no side effect. -/
theorem evaluate_unknown_mode_allows (pe : PolicyEngine) (bus : MessageBus)
    (mode : PolicyMode) (v : Violation) (channel chatID : String) (outcome : RaceOutcome)
    (h1 : mode ≠ "") (h2 : mode ≠ "off") (h3 : mode ≠ "block") (h4 : mode ≠ "approve") :
    Evaluate pe bus mode v channel chatID outcome = (bus, [], .ok ()) := by
  simp [Evaluate, PolicyMode.IsOff, ModeOff, ModeBlock, ModeApprove, h1, h2, h3, h4]

/-- Concrete instantiation of `evaluate_unknown_mode_allows` at the mode
value "unknown". -/
theorem evaluate_unknown_mode_allows_witness :
    Evaluate sampleEngine emptyBus "unknown" sampleViolation "telegram" "chat123"
        RaceOutcome.timeout = (emptyBus, [], .ok ()) :=
  evaluate_unknown_mode_allows sampleEngine emptyBus "unknown" sampleViolation
    "telegram" "chat123" RaceOutcome.timeout (by decide) (by decide) (by decide) (by decide)

/-- C3: an approve-mode Evaluate on an interactive channel performs exactly
one interceptor registration, exactly one outbound prompt publish, and
exactly one removal of the same registration (in that order) — and this
trace is the same on every exit path (`outcome` ranges over reply, timeout
and cancellation, and the deferred removal runs before returning on each),
so the final bus holds no registration of the cycle. -/
theorem approve_cycle_effect_discipline (pe : PolicyEngine) (bus : MessageBus)
    (v : Violation) (channel chatID : String) (outcome : RaceOutcome)
    (h1 : channel ≠ "") (h2 : channel ≠ "cli") :
    ∃ rid prompt,
      (Evaluate pe bus ModeApprove v channel chatID outcome).2.1 =
        [Effect.addInterceptor rid, Effect.publishOutbound prompt,
         Effect.removeInterceptor rid]
      ∧ (Evaluate pe bus ModeApprove v channel chatID outcome).1.outbound
          = bus.outbound ++ [prompt]
      ∧ ∀ r ∈ (Evaluate pe bus ModeApprove v channel chatID outcome).1.interceptors,
          r.id ≠ rid := by
  have hev : Evaluate pe bus ModeApprove v channel chatID outcome
      = requestApproval pe bus v channel chatID outcome := by
    simp [Evaluate, PolicyMode.IsOff, ModeOff, ModeBlock, ModeApprove, h1, h2]
  refine ⟨bus.nextId,
    { channel := channel, chatID := chatID,
      content := formatApprovalMessage v pe.config.approvalTimeout }, ?_, ?_, ?_⟩
  · rw [hev]
    rfl
  · rw [hev]
    rfl
  · rw [hev]
    intro r hr
    simp only [requestApproval, MessageBus.removeInterceptor, MessageBus.publishOutbound,
      MessageBus.addInterceptor, List.mem_filter] at hr
    simpa using hr.2

/-- Concrete instantiation of `approve_cycle_effect_discipline` on the
"telegram" channel, across the timeout exit path. -/
theorem approve_cycle_effect_discipline_witness :
    ∃ rid prompt,
      (Evaluate sampleEngine emptyBus ModeApprove sampleViolation "telegram" "chat123"
          RaceOutcome.timeout).2.1 =
        [Effect.addInterceptor rid, Effect.publishOutbound prompt,
         Effect.removeInterceptor rid]
      ∧ (Evaluate sampleEngine emptyBus ModeApprove sampleViolation "telegram" "chat123"
          RaceOutcome.timeout).1.outbound = emptyBus.outbound ++ [prompt]
      ∧ ∀ r ∈ (Evaluate sampleEngine emptyBus ModeApprove sampleViolation "telegram"
          "chat123" RaceOutcome.timeout).1.interceptors, r.id ≠ rid :=
  approve_cycle_effect_discipline sampleEngine emptyBus sampleViolation "telegram"
    "chat123" RaceOutcome.timeout (by decide) (by decide)

/-- C5: a fired cancellation signal makes the approval cycle return the
cancellation failure carrying the context's cause; the cycle's interceptor
is still removed (the trace ends with the removal), and the cancellation
failure is distinct from any timeout failure, both as an error value and in
its message, which never mentions a timeout. -/
theorem approve_cycle_cancellation (pe : PolicyEngine) (bus : MessageBus) (v : Violation)
    (channel chatID : String) (cause : CtxError) :
    (requestApproval pe bus v channel chatID (RaceOutcome.cancelled cause)).2.2
        = .error (.cancelled cause)
  ∧ (∃ rid prompt,
      (requestApproval pe bus v channel chatID (RaceOutcome.cancelled cause)).2.1 =
        [Effect.addInterceptor rid, Effect.publishOutbound prompt,
         Effect.removeInterceptor rid])
  ∧ (∀ ns, PolicyError.cancelled cause ≠ PolicyError.timedOut ns)
  ∧ containsSubstring (PolicyError.cancelled cause).message "timed out" = false := by
  refine ⟨rfl, ⟨bus.nextId, _, rfl⟩, ?_, ?_⟩
  · intro ns h
    exact PolicyError.noConfusion h
  · cases cause <;> decide

lemma wrap64_eq_self {x : Int} (h1 : -(2 ^ 63) ≤ x) (h2 : x < 2 ^ 63) : wrap64 x = x := by
  unfold wrap64
  have h3 : (0 : Int) ≤ x + 2 ^ 63 := by linarith
  have h4 : x + 2 ^ 63 < 2 ^ 64 := by
    have he : (2 : Int) ^ 64 = 2 ^ 63 + 2 ^ 63 := by norm_num
    linarith
  rw [Int.emod_eq_of_lt h3 h4]
  ring

/-- C4 (amended): the race maps an approved reply to success and a denied
reply to a failure carrying "denied" and the supplied reason; timeout expiry
returns a failure carrying "timed out" and the elapsed duration, where the
timeout is the configured number of seconds whenever its 64-bit nanosecond
conversion is in range and positive, and 300 seconds whenever the
configured value is non-positive with the conversion in range. -/
theorem approval_result_mapping (pe : PolicyEngine) (bus : MessageBus) (v : Violation)
    (channel chatID : String) :
    (∀ reason, (requestApproval pe bus v channel chatID
        (.reply { approved := true, reason := reason })).2.2 = .ok ())
  ∧ (∀ reason, (requestApproval pe bus v channel chatID
        (.reply { approved := false, reason := reason })).2.2 = .error (.denied reason)
      ∧ containsSubstring (PolicyError.denied reason).message "denied" = true
      ∧ containsSubstring (PolicyError.denied reason).message reason = true)
  ∧ (0 < pe.config.approvalTimeout → pe.config.approvalTimeout * 1000000000 < 2 ^ 63 →
      (requestApproval pe bus v channel chatID RaceOutcome.timeout).2.2
        = .error (.timedOut (pe.config.approvalTimeout * 1000000000)))
  ∧ (pe.config.approvalTimeout ≤ 0 →
      -(2 ^ 63) ≤ pe.config.approvalTimeout * 1000000000 →
      (requestApproval pe bus v channel chatID RaceOutcome.timeout).2.2
        = .error (.timedOut (300 * 1000000000)))
  ∧ (∀ ns, containsSubstring (PolicyError.timedOut ns).message "timed out" = true
      ∧ containsSubstring (PolicyError.timedOut ns).message (goDurationString ns) = true) := by
  refine ⟨fun reason => rfl, ?_, ?_, ?_, ?_⟩
  · intro reason
    refine ⟨rfl, ?_, ?_⟩
    · simp only [PolicyError.message]
      exact substr_append_left _ (by decide)
    · simp only [PolicyError.message]
      exact substr_append_right _ (substr_refl reason)
  · intro hpos hlt
    have hx0 : (0 : Int) < pe.config.approvalTimeout * 1000000000 :=
      mul_pos hpos (by norm_num)
    have hw : wrap64 (pe.config.approvalTimeout * 1000000000)
        = pe.config.approvalTimeout * 1000000000 :=
      wrap64_eq_self (by linarith) hlt
    have hng : ¬(wrap64 (pe.config.approvalTimeout * 1000000000) ≤ 0) := by
      rw [hw]
      exact not_le.mpr hx0
    have hng2 : ¬(pe.config.approvalTimeout * 1000000000 ≤ 0) := not_le.mpr hx0
    simp [requestApproval, hw, hng, hng2]
  · intro hneg hrange
    have hx : pe.config.approvalTimeout * 1000000000 ≤ 0 := by nlinarith
    have hw : wrap64 (pe.config.approvalTimeout * 1000000000)
        = pe.config.approvalTimeout * 1000000000 :=
      wrap64_eq_self hrange (lt_of_le_of_lt hx (by norm_num))
    have hle : wrap64 (pe.config.approvalTimeout * 1000000000) ≤ 0 := by
      rw [hw]
      exact hx
    simp [requestApproval, hle]
  · intro ns
    refine ⟨?_, ?_⟩
    · simp only [PolicyError.message]
      exact substr_append_left _ (by decide)
    · simp only [PolicyError.message]
      exact substr_append_right _ (substr_refl _)

/-- An engine whose configured timeout is zero (unset). -/
def zeroTimeoutEngine : PolicyEngine :=
  NewPolicyEngine
    { execGuard := "", ssrfProtection := "", pathValidation := "",
      skillValidation := "", approvalTimeout := 0 }

/-- An engine whose configured timeout overflows 64-bit nanoseconds to a
negative value. -/
def overflowEngine : PolicyEngine :=
  NewPolicyEngine
    { execGuard := "", ssrfProtection := "", pathValidation := "",
      skillValidation := "", approvalTimeout := 9223372037 }

/-- An engine with a hugely negative configured timeout, whose nanosecond
conversion wraps around to a positive value. -/
def negOverflowEngine : PolicyEngine :=
  NewPolicyEngine
    { execGuard := "", ssrfProtection := "", pathValidation := "",
      skillValidation := "", approvalTimeout := -9223372037 }

/-- C4 counterexample: with the positive configured value 9223372037 the
64-bit nanosecond conversion wraps negative, so the cycle times out after
the 300-second fallback rather than the configured duration; and with the
non-positive configured value -9223372037 the conversion wraps positive, so
the cycle does not default to 300 seconds at all. -/
theorem approval_timeout_claim_counterexample :
    (requestApproval overflowEngine emptyBus sampleViolation "telegram" "chat123"
        RaceOutcome.timeout).2.2 = .error (.timedOut (300 * 1000000000))
  ∧ (0 : Int) < overflowEngine.config.approvalTimeout
  ∧ (300 : Int) * 1000000000 ≠ overflowEngine.config.approvalTimeout * 1000000000
  ∧ (requestApproval negOverflowEngine emptyBus sampleViolation "telegram" "chat123"
        RaceOutcome.timeout).2.2 = .error (.timedOut 9223372036709551616)
  ∧ negOverflowEngine.config.approvalTimeout ≤ 0
  ∧ (9223372036709551616 : Int) ≠ 300 * 1000000000 :=
  ⟨rfl, by decide, by decide, rfl, by decide, by decide⟩

/-- Concrete instantiation of `approval_result_mapping`: a five-second
configuration times out carrying five seconds, a zero configuration times
out carrying the 300-second fallback. -/
theorem approval_result_mapping_witness :
    (requestApproval sampleEngine emptyBus sampleViolation "telegram" "chat123"
        RaceOutcome.timeout).2.2 = .error (.timedOut (5 * 1000000000))
  ∧ (requestApproval zeroTimeoutEngine emptyBus sampleViolation "telegram" "chat123"
        RaceOutcome.timeout).2.2 = .error (.timedOut (300 * 1000000000)) :=
  ⟨(approval_result_mapping sampleEngine emptyBus sampleViolation "telegram"
      "chat123").2.2.1 (by decide) (by decide),
   (approval_result_mapping zeroTimeoutEngine emptyBus sampleViolation "telegram"
      "chat123").2.2.2.1 (by decide) (by decide)⟩

set_option maxRecDepth 8192 in
/-- C9 counterexample: the prompt body can contain an auto-deny line even
when the timeout is not positive, because the violation's reason is
embedded verbatim — so "contains an auto-deny line iff the timeout is
positive" fails in the only-if direction at this concrete input. -/
theorem approval_prompt_claim_counterexample :
    containsSubstring
        (formatApprovalMessage
          { category := "cat", tool := "", action := "",
            reason := "x\nAuto-deny in 0 seconds.", ruleName := "" } 0)
        ("Auto-deny in " ++ toString (0 : Int) ++ " seconds.\n") = true
  ∧ ¬((0 : Int) > 0) := by
  exact ⟨by decide, by decide⟩

/-- C9 (amended): the prompt body contains the approval-request header, the
violation's category, the tool name if present, the attempted action if
present, the reason, the rule identifier if present, the instruction lines
naming accepted reply keywords of both the ASCII and the CJK sets
("approve"/"deny" and "批准"/"拒绝", each an accepted keyword), and, if the
timeout is positive, a line stating the auto-deny delay in seconds. -/
theorem approval_prompt_contents (v : Violation) (t : Int) :
    containsSubstring (formatApprovalMessage v t) "Security Approval Required" = true
  ∧ containsSubstring (formatApprovalMessage v t) v.category = true
  ∧ (v.tool ≠ "" → containsSubstring (formatApprovalMessage v t) v.tool = true)
  ∧ (v.action ≠ "" → containsSubstring (formatApprovalMessage v t) v.action = true)
  ∧ containsSubstring (formatApprovalMessage v t) v.reason = true
  ∧ (v.ruleName ≠ "" → containsSubstring (formatApprovalMessage v t) v.ruleName = true)
  ∧ containsSubstring (formatApprovalMessage v t)
      "Reply \"approve\" to allow or \"deny\" to block.\n" = true
  ∧ containsSubstring (formatApprovalMessage v t)
      "回复 \"批准\" 允许执行，回复 \"拒绝\" 阻止执行。\n" = true
  ∧ isApproveKeyword "approve" = true ∧ isDenyKeyword "deny" = true
  ∧ isApproveKeywordCJK "批准" = true ∧ isDenyKeywordCJK "拒绝" = true
  ∧ (0 < t → containsSubstring (formatApprovalMessage v t)
      ("Auto-deny in " ++ toString t ++ " seconds.\n") = true) := by
  refine ⟨?_, ?_, ?_, ?_, ?_, ?_, ?_, ?_, by decide, by decide, by decide, by decide, ?_⟩
  · simp only [formatApprovalMessage]
    exact substr_append_left _ (substr_append_left _ (substr_append_left _
      (substr_append_left _ (substr_append_left _ (substr_append_left _
        (substr_append_left _ (substr_append_left _ (by decide))))))))
  · simp only [formatApprovalMessage]
    exact substr_append_left _ (substr_append_left _ (substr_append_left _
      (substr_append_left _ (substr_append_left _ (substr_append_left _
        (substr_append_left _ (substr_append_right _ (substr_append_left _
          (substr_append_right _ (substr_refl v.category))))))))))
  · intro ht
    have e3 : (if v.tool != "" then "Tool: " ++ v.tool ++ "\n" else "")
        = "Tool: " ++ v.tool ++ "\n" := by simp [ht]
    simp only [formatApprovalMessage, e3]
    exact substr_append_left _ (substr_append_left _ (substr_append_left _
      (substr_append_left _ (substr_append_left _ (substr_append_left _
        (substr_append_right _ (substr_append_left _
          (substr_append_right _ (substr_refl v.tool)))))))))
  · intro ha
    have e4 : (if v.action != "" then "Action: " ++ v.action ++ "\n" else "")
        = "Action: " ++ v.action ++ "\n" := by simp [ha]
    simp only [formatApprovalMessage, e4]
    exact substr_append_left _ (substr_append_left _ (substr_append_left _
      (substr_append_left _ (substr_append_left _ (substr_append_right _
        (substr_append_left _ (substr_append_right _ (substr_refl v.action))))))))
  · simp only [formatApprovalMessage]
    exact substr_append_left _ (substr_append_left _ (substr_append_left _
      (substr_append_left _ (substr_append_right _ (substr_append_left _
        (substr_append_right _ (substr_refl v.reason)))))))
  · intro hr
    have e6 : (if v.ruleName != "" then "Rule: " ++ v.ruleName ++ "\n" else "")
        = "Rule: " ++ v.ruleName ++ "\n" := by simp [hr]
    simp only [formatApprovalMessage, e6]
    exact substr_append_left _ (substr_append_left _ (substr_append_left _
      (substr_append_right _ (substr_append_left _
        (substr_append_right _ (substr_refl v.ruleName))))))
  · simp only [formatApprovalMessage]
    exact substr_append_left _ (substr_append_left _
      (substr_append_right _ (by decide)))
  · simp only [formatApprovalMessage]
    exact substr_append_left _ (substr_append_right _ (substr_refl _))
  · intro hpos
    have e9 : (if t > 0 then "Auto-deny in " ++ toString t ++ " seconds.\n" else "")
        = "Auto-deny in " ++ toString t ++ " seconds.\n" := if_pos hpos
    simp only [formatApprovalMessage, e9]
    exact substr_append_right _ (substr_refl _)

/-- Concrete instantiation of `approval_prompt_contents`: a fully populated
violation with a 300-second timeout yields a prompt carrying the tool, the
action, the rule and the auto-deny line. -/
theorem approval_prompt_contents_witness :
    containsSubstring (formatApprovalMessage sampleViolation 300)
        sampleViolation.tool = true
  ∧ containsSubstring (formatApprovalMessage sampleViolation 300)
        sampleViolation.action = true
  ∧ containsSubstring (formatApprovalMessage sampleViolation 300)
        sampleViolation.ruleName = true
  ∧ containsSubstring (formatApprovalMessage sampleViolation 300)
        ("Auto-deny in " ++ toString (300 : Int) ++ " seconds.\n") = true := by
  have h := approval_prompt_contents sampleViolation 300
  exact ⟨h.2.2.1 (by decide), h.2.2.2.1 (by decide),
    h.2.2.2.2.2.1 (by decide), h.2.2.2.2.2.2.2.2.2.2.2.2 (by decide)⟩

end Picoclaw
